import Mathlib

/-!
Shallow embedding of the LangChain-Tools repository's dispatch layer.

Each CLI script wires API-backed tool functions (e.g. `search_web` in
`src/google_serper.py`, `search_wikipedia` in `src/wikipedia.py`) to a
single-agent task runner.  The external SDK call is modelled as a function
argument `provider : … → Except String …` where `Except.error e` stands for
a Python exception with message `e` (so `str(e) = e`).  Environment
variables are modelled as `Option String`: `none` is an absent variable and
`some ""` an empty one; both are falsy in Python (`if not KEY`).  Tool
functions return the produced string together with the number (or log) of
outbound provider calls made, so that claims about "no network call" are
statements about the embedding.

Python string operations (`strip`, `split`, `startswith`, `in`, slicing,
`title`) are modelled by structural functions over `List Char`, so every
definition evaluates by kernel reduction on concrete inputs.
-/

/-! ## Python string primitives -/

/-- The whitespace characters `str.strip()` removes (ASCII subset). -/
def pyWs (c : Char) : Bool :=
  c == ' ' || c == '\t' || c == '\n' || c == '\r' || c == '\x0b' || c == '\x0c'

/-- Python `s.strip()`. -/
def pyStrip (s : String) : String :=
  String.mk (((s.toList.dropWhile pyWs).reverse.dropWhile pyWs).reverse)

/-- Python `s.startswith(p)`. -/
def pyStartsWith (s p : String) : Bool :=
  p.toList.isPrefixOf s.toList

/-- Auxiliary for `needle in hay`: scan `hay` for an occurrence of
`needle`. -/
def containsSub (needle : List Char) : List Char → Bool
  | [] => needle.isPrefixOf []
  | c :: cs => needle.isPrefixOf (c :: cs) || containsSub needle cs

/-- Python `needle in hay` substring test. -/
def strContains (hay needle : String) : Bool :=
  containsSub needle.toList hay.toList

/-- Auxiliary for splitting on a single character, accumulating the current
piece in reverse. -/
def splitCharAux (sep : Char) : List Char → List Char → List (List Char)
  | [], acc => [acc.reverse]
  | c :: cs, acc =>
      if c == sep then acc.reverse :: splitCharAux sep cs []
      else splitCharAux sep cs (c :: acc)

/-- Python `s.split(sep)` for a one-character separator (always yields at
least one piece, as in Python). -/
def pySplitChar (sep : Char) (s : String) : List String :=
  (splitCharAux sep s.toList []).map String.mk

/-- Python `s[:n]` on a string. -/
def pyTake (s : String) (n : Nat) : String :=
  String.mk (s.toList.take n)

/-- Auxiliary for `str.title()`: the boolean records whether the previous
character was a letter. -/
def pyTitleGo : Bool → List Char → List Char
  | _, [] => []
  | prevAlpha, c :: cs =>
      if c.isAlpha then
        (if prevAlpha then c.toLower else c.toUpper) :: pyTitleGo true cs
      else c :: pyTitleGo false cs

/-- Python `s.title()` (ASCII letters). -/
def pyTitle (s : String) : String :=
  String.mk (pyTitleGo false s.toList)

/-- Python `"sep".join(xs)`. -/
def joinSep (sep : String) : List String → String
  | [] => ""
  | [x] => x
  | x :: xs => x ++ sep ++ joinSep sep xs

/-- Python `s.split(sep, 1)[1]`: everything after the first occurrence of a
one-character separator (the scripts only evaluate it on lines that start
with a prefix containing the separator, so the occurrence exists). -/
def pyAfterChar (sep : Char) (s : String) : String :=
  joinSep (String.mk [sep]) (pySplitChar sep s).tail

example : pyStrip "  a b " = "a b" := by decide
example : pySplitChar ',' "a,b , c" = ["a", "b ", " c"] := by decide
example : pySplitChar ',' "abc" = ["abc"] := by decide
example : strContains "xayz" "ay" = true := by decide
example : strContains "xayz" "q" = false := by decide
example : pyTitle "machine learning" = "Machine Learning" := by decide
example : pyAfterChar ':' "Max Value: 93" = " 93" := by decide
example : pyAfterChar ':' "a:b:c" = "b:c" := by decide

/-! ## Credential gating -/

/-- Python truthiness test `not KEY` for an environment variable read with
`os.getenv`: `None` (variable absent) and the empty string are falsy. -/
def envFalsy : Option String → Bool
  | none => true
  | some s => s == ""

/-- A credential counts as present exactly when the environment value is
truthy: present and non-empty. -/
def credTruthy (o : Option String) : Bool := !(envFalsy o)

/-! ## API-backed tool functions -/

/-- `src/google_serper.py`, `search_web`: gate on `SERPER_API_KEY`, run the
Serper wrapper, wrap any exception into an error string.  Returns the result
string and the number of provider calls made. -/
def searchWeb (serperApiKey : Option String)
    (provider : String → Except String String) (query : String) :
    String × Nat :=
  if envFalsy serperApiKey then
    ("Error: SERPER_API_KEY not found. Please set your Serper API key in environment variables.", 0)
  else
    match provider query with
    | .ok results => ("Search results for '" ++ query ++ "':\n" ++ results, 1)
    | .error e => ("Error searching with Serper: " ++ e, 1)

/-- `src/wikipedia.py`, `search_wikipedia`: run the Wikipedia wrapper, map an
empty or "No good Wikipedia Search Result was found" result to the
not-found message, wrap any exception into an error string. -/
def searchWikipedia (provider : String → Except String String)
    (query : String) : String :=
  match provider query with
  | .ok result =>
      if result == "" || strContains result "No good Wikipedia Search Result was found" then
        "No Wikipedia articles found for '" ++ query ++ "'. Please try a different search term."
      else
        result
  | .error e => "Error searching Wikipedia: " ++ e

/-- `src/PAID_google_search.py`, `search_google`: gate on both
`GOOGLE_API_KEY` and `GOOGLE_CSE_ID`, then run the Google wrapper; any
exception becomes an error string. -/
def searchGoogle (googleApiKey googleCseId : Option String)
    (provider : String → Except String String) (query : String) :
    String × Nat :=
  if envFalsy googleApiKey || envFalsy googleCseId then
    ("Error: GOOGLE_API_KEY and GOOGLE_CSE_ID must be set in environment variables", 0)
  else
    match provider query with
    | .ok results => (results, 1)
    | .error e => ("Error searching Google: " ++ e, 1)

/-- `src/google_trends.py`, `search_google_trends`: gate on `SERP_API_KEY`,
run the trends wrapper, wrap any exception into an error string. -/
def searchGoogleTrends (serpApiKey : Option String)
    (provider : String → Except String String) (query : String) :
    String × Nat :=
  if envFalsy serpApiKey then
    ("Error: SERP_API_KEY not found. Please set your SerpAPI key in environment variables.", 0)
  else
    match provider query with
    | .ok results => ("Google Trends data for '" ++ query ++ "':\n" ++ results, 1)
    | .error e => ("Error searching Google Trends: " ++ e, 1)

example :
    searchWeb (some "k") (fun _ => .error "boom") "ai" =
      ("Error searching with Serper: boom", 1) := by decide
example : searchWikipedia (fun _ => .error "down") "cats" =
    "Error searching Wikipedia: down" := by decide

/-! ## Python `int()` parsing and the menu input functions -/

/-- Value of a decimal digit list, most significant first. -/
def digitsVal (cs : List Char) : Nat :=
  cs.foldl (fun acc c => acc * 10 + (c.toNat - 48)) 0

/-- Python `int(s)`: optional surrounding whitespace, an optional sign, then
a non-empty run of decimal digits; anything else raises `ValueError`,
modelled as `none`. -/
def parseIntPy (s : String) : Option Int :=
  match (pyStrip s).toList with
  | [] => none
  | '-' :: rest =>
      if rest ≠ [] ∧ rest.all Char.isDigit then some (-(digitsVal rest : Int)) else none
  | '+' :: rest =>
      if rest ≠ [] ∧ rest.all Char.isDigit then some (digitsVal rest : Int) else none
  | cs =>
      if cs.all Char.isDigit then some (digitsVal cs : Int) else none

example : parseIntPy " 12 " = some 12 := by decide
example : parseIntPy "-3" = some (-3) := by decide
example : parseIntPy "3.5" = none := by decide
example : parseIntPy "abc" = none := by decide
example : parseIntPy "" = none := by decide

/-- The numeric-input idiom of `get_user_input` in `src/arxiv.py` (choice 3)
and `src/PAID_google_search.py` (choice 2):
`int(input(...).strip() or "5")` clamped with `min(max(n, 1), 10)` inside a
`try`, with `except ValueError` substituting the hardcoded 5. -/
def pyIntOr5Clamped (raw : String) : Int :=
  let t := pyStrip raw
  let t := if t == "" then "5" else t
  match parseIntPy t with
  | some n => min (max n 1) 10
  | none => 5

example : pyIntOr5Clamped "" = 5 := by decide
example : pyIntOr5Clamped "500" = 10 := by decide
example : pyIntOr5Clamped "0" = 1 := by decide
example : pyIntOr5Clamped "seven" = 5 := by decide

/-- Same idiom with other bounds and fallbacks: `src/apify_actor.py`
`get_user_input` uses fallback 3 with clamp `[1,10]` (choice 1) and fallback
10 with clamp `[1,100]` (choices 2 and 3). -/
def pyIntOrClamped (fallback lo hi : Int) (raw : String) : Int :=
  let t := pyStrip raw
  let t := if t == "" then toString fallback else t
  match parseIntPy t with
  | some n => min (max n lo) hi
  | none => fallback

/-- Parameter values placed in the `search_params` dictionaries: the scripts
store strings and ints. -/
inductive PVal where
  | s (v : String)
  | i (v : Int)
deriving DecidableEq, Repr

/-- `src/google_serper.py`, `get_user_input`: menu dispatch on the stripped
choice; each branch strips its query-like input and synthesizes the request
string and parameter dictionary.  `query` stands for the one query/topic
input of the taken branch and `timeFilter` for the extra input of branch 3. -/
def getUserInputSerper (choice query timeFilter : String) :
    String × List (String × String) :=
  let choice := pyStrip choice
  if choice == "1" then
    let q := pyStrip query
    ("Perform a general web search for: " ++ q,
     [("query", q), ("search_type", "general")])
  else if choice == "2" then
    let q := pyStrip query
    ("Perform a detailed search with metadata for: " ++ q,
     [("query", q), ("result_type", "search"), ("search_type", "detailed")])
  else if choice == "3" then
    let q := pyStrip query
    let tf := pyStrip timeFilter
    let tf := if tf != "" && ["h", "d", "w", "m"].contains tf then "qdr:" ++ tf else tf
    ("Search for recent news about: " ++ q,
     [("query", q), ("time_filter", tf), ("search_type", "news")])
  else if choice == "4" then
    let q := pyStrip query
    ("Search for images related to: " ++ q,
     [("query", q), ("result_type", "images"), ("search_type", "images")])
  else if choice == "5" then
    let q := pyStrip query
    ("Search for places related to: " ++ q,
     [("query", q), ("result_type", "places"), ("search_type", "places")])
  else if choice == "6" then
    let t := pyStrip query
    ("Conduct comprehensive research on: " ++ t,
     [("topic", t), ("search_type", "research")])
  else
    let q := pyStrip query
    let q := if q == "" then "latest technology news" else q
    ("Search for: " ++ q, [("query", q), ("search_type", "general")])

/-- `src/arxiv.py`, `get_user_input`: menu dispatch; `topicInput` stands for
the topic / ArXiv-id / field input of the taken branch, `numStr` for the
"Number of papers" input of branch 3. -/
def getUserInputArxiv (choice topicInput numStr : String) :
    String × List (String × PVal) :=
  let choice := pyStrip choice
  if choice == "1" then
    let t := pyStrip topicInput
    ("Search for papers related to: " ++ t,
     [("topic", .s t), ("search_type", .s "topic_search")])
  else if choice == "2" then
    let a := pyStrip topicInput
    ("Get detailed information for ArXiv paper: " ++ a,
     [("arxiv_id", .s a), ("search_type", .s "paper_details")])
  else if choice == "3" then
    let t := pyStrip topicInput
    ("Conduct comprehensive research on: " ++ t,
     [("topic", .s t), ("max_papers", .i (pyIntOr5Clamped numStr)),
      ("search_type", .s "comprehensive")])
  else if choice == "4" then
    let f := pyStrip topicInput
    ("Analyze recent research trends in: " ++ f,
     [("field", .s f), ("search_type", .s "trend_analysis")])
  else
    let t := pyStrip topicInput
    let t := if t == "" then "machine learning" else t
    ("Research papers on: " ++ t,
     [("topic", .s t), ("search_type", .s "general")])

/-- `src/PAID_google_search.py`, `get_user_input`: menu dispatch; `query`
stands for the query/topic input of the taken branch, `numStr` for the
"Number of results" input of branch 2. -/
def getUserInputPaidGoogle (choice query numStr : String) :
    String × List (String × PVal) :=
  let choice := pyStrip choice
  if choice == "1" then
    let q := pyStrip query
    ("Perform a general web search for: " ++ q,
     [("query", .s q), ("search_type", .s "general")])
  else if choice == "2" then
    let q := pyStrip query
    ("Perform a detailed search with metadata for: " ++ q,
     [("query", .s q), ("num_results", .i (pyIntOr5Clamped numStr)),
      ("search_type", .s "detailed")])
  else if choice == "3" then
    let q := pyStrip query
    ("Perform a quick search for: " ++ q,
     [("query", .s q), ("search_type", .s "quick")])
  else if choice == "4" then
    let t := pyStrip query
    ("Conduct comprehensive research on: " ++ t,
     [("topic", .s t), ("search_type", .s "research")])
  else
    let q := pyStrip query
    let q := if q == "" then "latest technology news" else q
    ("Search for: " ++ q, [("query", .s q), ("search_type", .s "general")])

example :
    (getUserInputSerper "2" " cats " "").1 =
      "Perform a detailed search with metadata for: cats" := by decide
example :
    (getUserInputSerper "9" "  " "").1 =
      "Search for: latest technology news" := by decide
example :
    (getUserInputArxiv "weird" "" "").1 =
      "Research papers on: machine learning" := by decide
example :
    (getUserInputArxiv "3" "qc" "lots").2 =
      [("topic", .s "qc"), ("max_papers", .i 5),
       ("search_type", .s "comprehensive")] := by decide

/-! ## Detailed Google search (`src/PAID_google_search.py`, `search_google_detailed`) -/

/-- One entry of the list returned by `GoogleSearchAPIWrapper.results`: a
dict whose `title` / `link` / `snippet` keys may be absent. -/
structure GResult where
  title : Option String
  link : Option String
  snippet : Option String
deriving DecidableEq

/-- The arguments of the one outbound call `search_google_detailed` makes:
the wrapper is built with `k = min(num_results, 10)` and then
`search.results(query, num_results)` is called. -/
structure GoogleDetailedCall where
  wrapperK : Int
  query : String
  numResults : Int
deriving DecidableEq, Repr

/-- The `for i, result in enumerate(results, 1)` formatting loop of
`search_google_detailed`. -/
def fmtGResults : Nat → List GResult → String
  | _, [] => ""
  | i, r :: rs =>
      toString i ++ ". **" ++ r.title.getD "No Title" ++ "**\n" ++
      "   Link: " ++ r.link.getD "No Link" ++ "\n" ++
      "   Snippet: " ++ r.snippet.getD "No Description" ++ "\n\n" ++
      fmtGResults (i + 1) rs

/-- `src/PAID_google_search.py`, `search_google_detailed`: gate on both
credentials, build the wrapper with `k = min(num_results, 10)`, call
`results(query, num_results)`, format; any exception becomes an error
string.  Returns the result string and the log of outbound calls. -/
def searchGoogleDetailed (googleApiKey googleCseId : Option String)
    (provider : GoogleDetailedCall → Except String (List GResult))
    (query : String) (numResults : Int) :
    String × List GoogleDetailedCall :=
  if envFalsy googleApiKey || envFalsy googleCseId then
    ("Error: GOOGLE_API_KEY and GOOGLE_CSE_ID must be set in environment variables", [])
  else
    let call : GoogleDetailedCall := ⟨min numResults 10, query, numResults⟩
    match provider call with
    | .ok results =>
        if results.isEmpty then
          ("No results found for query: " ++ query, [call])
        else
          ("Google Search Results for '" ++ query ++ "':\n\n" ++ fmtGResults 1 results,
           [call])
    | .error e => ("Error in detailed Google search: " ++ e, [call])

example :
    (searchGoogleDetailed (some "a") (some "c")
      (fun _ => .ok [⟨some "T", none, none⟩]) "q" 500).2 =
      [⟨10, "q", 500⟩] := by decide

/-! ## ArXiv topic research (`src/arxiv.py`, `research_arxiv_topic`) -/

/-- One parsed `atom:entry` of the ArXiv API response: each field the code
reads with `find`/`findall` may be missing. -/
structure ArxivEntry where
  title : Option String
  authors : List String
  published : Option String
  summary : Option String
  entryId : Option String
  categories : List String
deriving DecidableEq

/-- The query parameters of the one `requests.get` call
`research_arxiv_topic` makes. -/
structure ArxivCall where
  searchQuery : String
  start : Int
  maxResults : Int
  sortBy : String
  sortOrder : String
deriving DecidableEq, Repr

/-- The HTTP boundary of `research_arxiv_topic`: `requests.get` yields a
status code, and `ET.fromstring` either parses the entries or raises
(`parseResult = .error`); a raised `requests` exception is the outer
`Except.error`. -/
structure ArxivHttpResponse where
  statusCode : Int
  parseResult : Except String (List ArxivEntry)

/-- Python `s.replace(old, new)` for one-character patterns. -/
def pyReplaceChar (old new : Char) (s : String) : String :=
  String.mk (s.toList.map fun c => if c == old then new else c)

/-- The `for i, entry in enumerate(entries, 1)` formatting loop of
`research_arxiv_topic`. -/
def fmtArxivEntries : Nat → List ArxivEntry → String
  | _, [] => ""
  | i, e :: es =>
      let titleText := match e.title with
        | some t => pyReplaceChar '\n' ' ' (pyStrip t)
        | none => "No Title"
      let pubDate := match e.published with
        | some p => pyTake p 10
        | none => "Unknown"
      let summaryText := match e.summary with
        | some s => pyTake (pyStrip s) 400 ++ "..."
        | none => "No summary"
      let arxivId := match e.entryId with
        | some id => (pySplitChar '/' id).getLastD ""
        | none => "Unknown"
      "**Paper " ++ toString i ++ ":**\n" ++
      "📅 Published: " ++ pubDate ++ "\n" ++
      "📄 Title: " ++ titleText ++ "\n" ++
      "👥 Authors: " ++ joinSep ", " (e.authors.take 3) ++
        (if e.authors.length > 3 then "..." else "") ++ "\n" ++
      "🏷️ Categories: " ++ joinSep ", " (e.categories.take 3) ++ "\n" ++
      "📝 Summary: " ++ summaryText ++ "\n" ++
      "🆔 ArXiv ID: " ++ arxivId ++ "\n" ++
      "🔗 PDF: https://arxiv.org/pdf/" ++ arxivId ++ ".pdf\n\n" ++
      fmtArxivEntries (i + 1) es

/-- `src/arxiv.py`, `research_arxiv_topic`: clamp `max_papers` with
`min(max(max_papers, 1), 10)`, issue the one API call, check the status
code, format the parsed entries; any exception becomes
"Error conducting topic research: …".  Returns the result string and the
log of outbound calls. -/
def researchArxivTopic
    (provider : ArxivCall → Except String ArxivHttpResponse)
    (topic : String) (maxPapers : Int) : String × List ArxivCall :=
  let mp := min (max maxPapers 1) 10
  let call : ArxivCall := ⟨"all:" ++ topic, 0, mp, "relevance", "descending"⟩
  match provider call with
  | .error e => ("Error conducting topic research: " ++ e, [call])
  | .ok resp =>
      if resp.statusCode != 200 then
        ("Error: ArXiv API returned status " ++ toString resp.statusCode, [call])
      else
        match resp.parseResult with
        | .error e => ("Error conducting topic research: " ++ e, [call])
        | .ok entries =>
            if entries.isEmpty then
              ("No papers found for topic: " ++ topic, [call])
            else
              ("**Research Summary: " ++ pyTitle topic ++ "**\n\n" ++
                 fmtArxivEntries 1 entries,
               [call])

example :
    (researchArxivTopic (fun _ => .error "net down") "qc" 500).2 =
      [⟨"all:qc", 0, 10, "relevance", "descending"⟩] := by decide

/-! ## Detailed Serper search (`src/google_serper.py`, `search_web_detailed`) -/

/-- The `knowledgeGraph` dict of a Serper response; each key the code reads
with `.get` may be absent. -/
structure KnowledgeGraph where
  title : Option String
  kgType : Option String
  description : Option String
  website : Option String
deriving DecidableEq

/-- One entry of the `organic` list of a Serper response. -/
structure OrganicResult where
  title : Option String
  link : Option String
  snippet : Option String
deriving DecidableEq

/-- One entry of the `news` list of a Serper response. -/
structure NewsArticle where
  title : Option String
  source : Option String
  date : Option String
  link : Option String
  snippet : Option String
deriving DecidableEq

/-- One entry of the `images` list of a Serper response. -/
structure ImageResult where
  title : Option String
  imageUrl : Option String
  source : Option String
  link : Option String
deriving DecidableEq

/-- One entry of the `places` list of a Serper response. -/
structure PlaceResult where
  title : Option String
  address : Option String
  rating : Option String
  ratingCount : Option String
  phoneNumber : Option String
  website : Option String
deriving DecidableEq

/-- The structured dict returned by `GoogleSerperAPIWrapper.results`: a
top-level key being absent (`'organic' in results` false) is `none`. -/
structure SerperResults where
  knowledgeGraph : Option KnowledgeGraph
  organic : Option (List OrganicResult)
  news : Option (List NewsArticle)
  images : Option (List ImageResult)
  places : Option (List PlaceResult)
deriving DecidableEq

/-- The knowledge-graph block of `search_web_detailed`. -/
def fmtKnowledgeGraph (kg : KnowledgeGraph) : String :=
  "**Knowledge Graph:**\n" ++
  "Title: " ++ kg.title.getD "N/A" ++ "\n" ++
  "Type: " ++ kg.kgType.getD "N/A" ++ "\n" ++
  "Description: " ++ kg.description.getD "N/A" ++ "\n" ++
  "Website: " ++ kg.website.getD "N/A" ++ "\n\n"

/-- The `enumerate(results['organic'][:5], 1)` loop of
`search_web_detailed`. -/
def fmtOrganicResults : Nat → List OrganicResult → String
  | _, [] => ""
  | i, r :: rs =>
      toString i ++ ". **" ++ r.title.getD "No Title" ++ "**\n" ++
      "   URL: " ++ r.link.getD "No Link" ++ "\n" ++
      "   Snippet: " ++ r.snippet.getD "No Description" ++ "\n\n" ++
      fmtOrganicResults (i + 1) rs

/-- The `enumerate(results['news'][:5], 1)` loop of `search_web_detailed`. -/
def fmtNewsArticles : Nat → List NewsArticle → String
  | _, [] => ""
  | i, a :: as_ =>
      toString i ++ ". **" ++ a.title.getD "No Title" ++ "**\n" ++
      "   Source: " ++ a.source.getD "Unknown" ++ "\n" ++
      "   Date: " ++ a.date.getD "Unknown" ++ "\n" ++
      "   URL: " ++ a.link.getD "No Link" ++ "\n" ++
      "   Snippet: " ++ a.snippet.getD "No Description" ++ "\n\n" ++
      fmtNewsArticles (i + 1) as_

/-- The `enumerate(results['images'][:5], 1)` loop of
`search_web_detailed`. -/
def fmtImageResults : Nat → List ImageResult → String
  | _, [] => ""
  | i, im :: ims =>
      toString i ++ ". **" ++ im.title.getD "No Title" ++ "**\n" ++
      "   Image URL: " ++ im.imageUrl.getD "No URL" ++ "\n" ++
      "   Source: " ++ im.source.getD "Unknown" ++ "\n" ++
      "   Link: " ++ im.link.getD "No Link" ++ "\n\n" ++
      fmtImageResults (i + 1) ims

/-- The `enumerate(results['places'][:5], 1)` loop of
`search_web_detailed`. -/
def fmtPlaceResults : Nat → List PlaceResult → String
  | _, [] => ""
  | i, p :: ps =>
      toString i ++ ". **" ++ p.title.getD "No Title" ++ "**\n" ++
      "   Address: " ++ p.address.getD "No Address" ++ "\n" ++
      "   Rating: " ++ p.rating.getD "No Rating" ++ " (" ++
        p.ratingCount.getD "0" ++ " reviews)\n" ++
      "   Phone: " ++ p.phoneNumber.getD "No Phone" ++ "\n" ++
      "   Website: " ++ p.website.getD "No Website" ++ "\n\n" ++
      fmtPlaceResults (i + 1) ps

/-- `src/google_serper.py`, `search_web_detailed`: gate on
`SERPER_API_KEY`, fall back to search type "search" when `result_type` is
not one of the four known types, issue the call with the fallback type, then
format — the formatting branches test the ORIGINAL `result_type`.  Returns
the result string and the log of `(type, query)` calls. -/
def searchWebDetailed (serperApiKey : Option String)
    (provider : String × String → Except String SerperResults)
    (query resultType : String) : String × List (String × String) :=
  if envFalsy serperApiKey then
    ("Error: SERPER_API_KEY not found. Please set your Serper API key in environment variables.", [])
  else
    let searchType :=
      if ["search", "images", "news", "places"].contains resultType then resultType
      else "search"
    match provider (searchType, query) with
    | .error e => ("Error in detailed Serper search: " ++ e, [(searchType, query)])
    | .ok results =>
        let fr := "Detailed " ++ searchType ++ " results for '" ++ query ++ "':\n\n"
        let fr :=
          if resultType == "search" then
            let fr := match results.knowledgeGraph with
              | some kg => fr ++ fmtKnowledgeGraph kg
              | none => fr
            match results.organic with
            | some os => fr ++ "**Top Organic Results:**\n" ++ fmtOrganicResults 1 (os.take 5)
            | none => fr
          else if resultType == "news" then
            match results.news with
            | some ns => fr ++ "**Latest News:**\n" ++ fmtNewsArticles 1 (ns.take 5)
            | none => fr
          else if resultType == "images" then
            match results.images with
            | some ims => fr ++ "**Image Results:**\n" ++ fmtImageResults 1 (ims.take 5)
            | none => fr
          else if resultType == "places" then
            match results.places with
            | some ps => fr ++ "**Places Results:**\n" ++ fmtPlaceResults 1 (ps.take 5)
            | none => fr
          else fr
        (fr, [(searchType, query)])

/-- A fully populated stub Serper response, used to exercise the claim that
an unknown `result_type` renders none of it. -/
def stubSerperResults : SerperResults :=
  { knowledgeGraph := some ⟨some "T", some "Ty", some "D", some "W"⟩
    organic := some [⟨some "O1", some "L1", some "S1"⟩]
    news := some [⟨some "N1", some "Src", some "D1", some "L1", some "S1"⟩]
    images := some [⟨some "I1", some "U1", some "Src", some "L1"⟩]
    places := some [⟨some "P1", some "A1", some "4.5", some "10", some "123", some "W1"⟩] }

example :
    (searchWebDetailed (some "k") (fun _ => .ok stubSerperResults) "q" "videos").1 =
      "Detailed search results for 'q':\n\n" := by decide

/-! ## Trends comparison (`src/google_trends.py`, `compare_trends`) -/

/-- The per-line pattern match inside a term's inner `try` block of
`compare_trends`.  `floatFmt` models `f-string` rendering of
`float(text):.1f` at the external floating-point boundary: `.error` is a
raised `ValueError`, which the inner `except` turns into the error note and
abandons the rest of this term's lines. -/
def trendCompareLines (floatFmt : String → Except String String)
    (term : String) : List String → String
  | [] => "\n"
  | line :: rest =>
      if pyStartsWith line "Average Value:" then
        match floatFmt (pyStrip (pyAfterChar ':' line)) with
        | .ok v =>
            "   Average Interest: " ++ v ++ "\n" ++ trendCompareLines floatFmt term rest
        | .error e => "   Error analyzing '" ++ term ++ "': " ++ e ++ "\n\n"
      else if pyStartsWith line "Precent Change:" then
        "   Trend Change: " ++ pyStrip (pyAfterChar ':' line) ++ "\n" ++
          trendCompareLines floatFmt term rest
      else if pyStartsWith line "Max Value:" then
        "   Peak Interest: " ++ pyStrip (pyAfterChar ':' line) ++ "\n" ++
          trendCompareLines floatFmt term rest
      else trendCompareLines floatFmt term rest

/-- One iteration of the `enumerate(term_list, 1)` loop of
`compare_trends`: the provider raising inside the inner `try` yields only
the error note for this term. -/
def trendCompareTerm (floatFmt : String → Except String String)
    (provider : String → Except String String) (i : Nat) (term : String) :
    String :=
  match provider term with
  | .error e => "   Error analyzing '" ++ term ++ "': " ++ e ++ "\n\n"
  | .ok result =>
      "**" ++ toString i ++ ". " ++ pyTitle term ++ "**\n" ++
      trendCompareLines floatFmt term (pySplitChar '\n' result)

/-- The whole `enumerate(term_list, 1)` loop of `compare_trends`. -/
def trendCompareLoop (floatFmt provider : String → Except String String) :
    Nat → List String → String
  | _, [] => ""
  | i, t :: ts =>
      trendCompareTerm floatFmt provider i t ++
      trendCompareLoop floatFmt provider (i + 1) ts

/-- `src/google_trends.py`, `compare_trends`: gate on `SERP_API_KEY`, split
the comma-separated terms, require at least two, then run the comparison
loop (one provider call per term).  Returns the result string and the number
of provider calls made. -/
def compareTrends (serpApiKey : Option String)
    (floatFmt : String → Except String String)
    (provider : String → Except String String) (terms : String) :
    String × Nat :=
  if envFalsy serpApiKey then
    ("Error: SERP_API_KEY not found. Please set your SerpAPI key in environment variables.", 0)
  else
    let termList := (pySplitChar ',' terms).map pyStrip
    if termList.length < 2 then
      ("Please provide at least 2 terms separated by commas for comparison.", 0)
    else
      ("**Trend Comparison Analysis**\n\n" ++
         trendCompareLoop floatFmt provider 1 termList,
       termList.length)

example :
    compareTrends (some "k") (fun s => .ok s) (fun _ => .ok "Max Value: 9") "iphone" =
      ("Please provide at least 2 terms separated by commas for comparison.", 0) := by decide

/-! ## Task construction and dispatch (`src/google_serper.py`) -/

/-- The fields of the `crewai` `Task` the scripts build (`agent` starts as
`None` and is assigned later, outside `create_serper_task`). -/
structure CrewTask where
  description : String
  expectedOutput : String
deriving DecidableEq

/-- `src/google_serper.py`, `create_serper_task`: render the parameter dict
as "- k: v" lines ("None" when empty) and splice it with the request into
the fixed task-description template. -/
def createSerperTask (searchRequest : String)
    (searchParams : List (String × String)) : CrewTask :=
  let paramsStr :=
    if searchParams.isEmpty then "None"
    else joinSep "\n" (searchParams.map fun p => "- " ++ p.1 ++ ": " ++ p.2)
  { description :=
      "\n    You have access to multiple Google Serper search tools for finding information on the web.\n\n    ### Search Request:\n    "
      ++ searchRequest
      ++ "\n\n    ### Search Parameters:\n    "
      ++ paramsStr
      ++ "\n\n    Please:\n    1. Analyze the search request to determine the best search approach\n    2. Use appropriate search tools based on the request type:\n    - Use \"Google Serper Search\" for general web searches\n    - Use \"Google Serper Detailed Search\" for comprehensive results with metadata\n    - Use \"Google Serper News Search\" for current news and recent events\n    3. If needed, perform multiple searches with different queries to get comprehensive results\n    4. Synthesize the information from search results into a clear, organized response\n    5. Include relevant sources and links in your summary\n\n    Available tools:\n    - Google Serper Search: Fast general web search\n    - Google Serper Detailed Search: Comprehensive search with knowledge graph, organic results, images, news, or places\n    - Google Serper News Search: Focused news search with time filtering options\n    "
    expectedOutput :=
      "Comprehensive research summary with relevant information, sources, and links from current web data" }

/-- The classification-and-task-construction pipeline of
`src/google_serper.py`'s `main`: `get_user_input` followed by
`create_serper_task` on its output. -/
def serperDispatch (choice query timeFilter : String) :
    (String × List (String × String)) × CrewTask :=
  let r := getUserInputSerper choice query timeFilter
  (r, createSerperTask r.1 r.2)

/-! ## Helper lemmas -/

theorem pyStrip_as_rdropWhile (s : String) :
    pyStrip s = String.mk (List.rdropWhile pyWs (s.toList.dropWhile pyWs)) := rfl

theorem pyStrip_idem (s : String) : pyStrip (pyStrip s) = pyStrip s := by
  have key : ∀ l : List Char,
      List.rdropWhile pyWs
          ((List.rdropWhile pyWs (l.dropWhile pyWs)).dropWhile pyWs) =
        List.rdropWhile pyWs (l.dropWhile pyWs) := by
    intro l
    have hdrop :
        (List.rdropWhile pyWs (l.dropWhile pyWs)).dropWhile pyWs =
          List.rdropWhile pyWs (l.dropWhile pyWs) := by
      rw [List.dropWhile_eq_self_iff]
      intro hl
      have hpre := List.rdropWhile_prefix pyWs (l.dropWhile pyWs)
      have hl' : 0 < (l.dropWhile pyWs).length := lt_of_lt_of_le hl hpre.length_le
      have hget := List.IsPrefix.getElem hpre hl
      simp only [List.get_eq_getElem]
      rw [hget]
      have := List.dropWhile_get_zero_not pyWs l hl'
      simpa using this
    rw [hdrop, List.rdropWhile_idempotent]
  rw [pyStrip_as_rdropWhile s, pyStrip_as_rdropWhile]
  show String.mk
      (List.rdropWhile pyWs
        ((List.rdropWhile pyWs (s.toList.dropWhile pyWs)).dropWhile pyWs)) = _
  rw [key]

theorem parseIntPy_pyStrip (s : String) :
    parseIntPy (pyStrip s) = parseIntPy s := by
  unfold parseIntPy
  rw [pyStrip_idem]

theorem pyIntOr5Clamped_of_parse_fail {raw : String}
    (h : parseIntPy raw = none) : pyIntOr5Clamped raw = 5 := by
  unfold pyIntOr5Clamped
  by_cases he : pyStrip raw = ""
  · simp only [he]
    decide
  · have hne : (pyStrip raw == "") = false := by
      simpa using he
    simp only [hne, Bool.false_eq_true, if_false]
    rw [parseIntPy_pyStrip, h]

/-! ## Claim theorems -/

/-- C1: for every query and every exception raised by the underlying
provider call, the API-backed tool functions `search_web`
(`src/google_serper.py`) and `search_wikipedia` (`src/wikipedia.py`) return
a string error result describing the exception's message; the exception is
never propagated (the embeddings are total functions into `String`, and the
catch branch is the value returned). -/
theorem tool_wraps_provider_exception
    (serperApiKey : Option String) (sp wp : String → Except String String)
    (q e q2 e2 : String)
    (hkey : envFalsy serperApiKey = false)
    (hsp : sp q = Except.error e)
    (hwp : wp q2 = Except.error e2) :
    searchWeb serperApiKey sp q = ("Error searching with Serper: " ++ e, 1) ∧
    searchWikipedia wp q2 = "Error searching Wikipedia: " ++ e2 := by
  constructor
  · simp [searchWeb, hkey, hsp]
  · simp [searchWikipedia, hwp]

theorem tool_wraps_provider_exception_witness :
    searchWeb (some "k") (fun _ => Except.error "boom") "q" =
      ("Error searching with Serper: boom", 1) ∧
    searchWikipedia (fun _ => Except.error "down") "c" =
      "Error searching Wikipedia: down" :=
  tool_wraps_provider_exception (some "k") (fun _ => Except.error "boom")
    (fun _ => Except.error "down") "q" "boom" "c" "down" (by decide) rfl rfl

/-- C2: the credential gate is available iff every required credential is
present and non-empty: `credTruthy` characterizes "present and non-empty",
the two-credential `search_google` performs its provider call iff both
`GOOGLE_API_KEY` and `GOOGLE_CSE_ID` are truthy (and returns the
credential error without a call when either is absent or empty), and the
one-credential `search_web` performs its call iff `SERPER_API_KEY` is
truthy. -/
theorem credential_gate_iff_all_present
    (googleApiKey googleCseId serperApiKey : Option String)
    (gp sp : String → Except String String) (q : String) :
    (∀ o : Option String, credTruthy o = true ↔ ∃ s, o = some s ∧ s ≠ "") ∧
    ((searchGoogle googleApiKey googleCseId gp q).2 = 1 ↔
      credTruthy googleApiKey = true ∧ credTruthy googleCseId = true) ∧
    ((searchWeb serperApiKey sp q).2 = 1 ↔ credTruthy serperApiKey = true) ∧
    ((credTruthy googleApiKey = false ∨ credTruthy googleCseId = false) →
      searchGoogle googleApiKey googleCseId gp q =
        ("Error: GOOGLE_API_KEY and GOOGLE_CSE_ID must be set in environment variables", 0)) := by
  refine ⟨?_, ?_, ?_, ?_⟩
  · intro o
    cases o with
    | none => simp [credTruthy, envFalsy]
    | some s => simp [credTruthy, envFalsy]
  · unfold searchGoogle credTruthy
    cases h1 : envFalsy googleApiKey <;> cases h2 : envFalsy googleCseId <;>
      simp <;> cases gp q <;> simp
  · unfold searchWeb credTruthy
    cases h1 : envFalsy serperApiKey <;> simp <;> cases sp q <;> simp
  · unfold searchGoogle credTruthy
    intro h
    have h' : envFalsy googleApiKey = true ∨ envFalsy googleCseId = true := by
      rcases h with h | h <;> simp_all
    rcases h' with h' | h' <;> simp [h']

theorem credential_gate_iff_all_present_witness :
    ((searchGoogle (some "a") none (fun _ => Except.ok "r") "q").2 = 1 ↔
      credTruthy (some "a") = true ∧ credTruthy none = true) ∧
    searchGoogle (some "a") none (fun _ => Except.ok "r") "q" =
      ("Error: GOOGLE_API_KEY and GOOGLE_CSE_ID must be set in environment variables", 0) := by
  have h := credential_gate_iff_all_present (some "a") none (some "k")
    (fun _ => Except.ok "r") (fun _ => Except.ok "r") "q"
  exact ⟨h.2.1, h.2.2.2 (Or.inr (by decide))⟩

/-- C3: when the required credential is absent or empty, `search_web` and
`search_google_trends` return the credential-missing error result with zero
provider calls; when it is present they make exactly one outbound provider
call. -/
theorem credential_missing_no_call
    (serperKey serpKey : Option String)
    (sp tp : String → Except String String) (q1 q2 : String) :
    (envFalsy serperKey = true →
      searchWeb serperKey sp q1 =
        ("Error: SERPER_API_KEY not found. Please set your Serper API key in environment variables.", 0)) ∧
    (envFalsy serperKey = false → (searchWeb serperKey sp q1).2 = 1) ∧
    (envFalsy serpKey = true →
      searchGoogleTrends serpKey tp q2 =
        ("Error: SERP_API_KEY not found. Please set your SerpAPI key in environment variables.", 0)) ∧
    (envFalsy serpKey = false → (searchGoogleTrends serpKey tp q2).2 = 1) := by
  refine ⟨?_, ?_, ?_, ?_⟩ <;> intro h <;>
    simp only [searchWeb, searchGoogleTrends, h] <;> simp <;>
    first
    | (cases sp q1 <;> simp)
    | (cases tp q2 <;> simp)

theorem researchArxivTopic_calls
    (ap : ArxivCall → Except String ArxivHttpResponse) (topic : String)
    (mp : Int) :
    (researchArxivTopic ap topic mp).2 =
      [⟨"all:" ++ topic, 0, min (max mp 1) 10, "relevance", "descending"⟩] := by
  unfold researchArxivTopic
  cases h : ap ⟨"all:" ++ topic, 0, min (max mp 1) 10, "relevance", "descending"⟩ with
  | error e => simp [h]
  | ok resp =>
    simp only [h]
    cases hs : (resp.statusCode != 200) with
    | true => simp [hs]
    | false =>
      simp only [hs, Bool.false_eq_true, if_false]
      cases hp : resp.parseResult with
      | error e => simp [hp]
      | ok entries => cases he : entries.isEmpty <;> simp [hp, he]

theorem pyIntOr5Clamped_bounds (raw : String) :
    1 ≤ pyIntOr5Clamped raw ∧ pyIntOr5Clamped raw ≤ 10 := by
  unfold pyIntOr5Clamped
  dsimp only
  constructor <;> split <;> omega

/-- C4 counterexample: with both credentials present,
`search_google_detailed` called with `num_results = 500` issues the provider
call with `numResults = 500` — outside the documented `[1,10]` — while only
the wrapper's `k` parameter is capped at `min(num_results, 10) = 10`. -/
theorem num_results_passed_unclamped_cex :
    (searchGoogleDetailed (some "a") (some "c")
        (fun _ => Except.ok [⟨some "T", some "L", some "S"⟩]) "q" 500).2 =
      [⟨10, "q", 500⟩] ∧ ¬((500 : Int) ≤ 10) := by
  constructor
  · decide
  · decide

/-- C4 amended: `research_arxiv_topic` clamps `max_papers` into `[1,10]`
before its one provider call, and the user-collected counts parsed by
`get_user_input` (arxiv choice 3, PAID choice 2) are clamped into `[1,10]`;
but `search_google_detailed` passes `num_results` to the provider's
`results(query, num_results)` call unclamped — only the wrapper's `k` is
capped above by `min(num_results, 10)`, with no lower bound. -/
theorem numeric_clamping_amended
    (ap : ArxivCall → Except String ArxivHttpResponse)
    (gp : GoogleDetailedCall → Except String (List GResult))
    (topic q raw : String) (maxPapers numResults : Int) :
    ((researchArxivTopic ap topic maxPapers).2.map ArxivCall.maxResults =
        [min (max maxPapers 1) 10] ∧
      1 ≤ min (max maxPapers 1) 10 ∧ min (max maxPapers 1) 10 ≤ 10) ∧
    (1 ≤ pyIntOr5Clamped raw ∧ pyIntOr5Clamped raw ≤ 10) ∧
    (searchGoogleDetailed (some "a") (some "c") gp q numResults).2 =
      [⟨min numResults 10, q, numResults⟩] := by
  refine ⟨⟨?_, by omega, by omega⟩, pyIntOr5Clamped_bounds raw, ?_⟩
  · rw [researchArxivTopic_calls]
    rfl
  · unfold searchGoogleDetailed
    simp only [show (envFalsy (some "a") || envFalsy (some "c")) = false from by decide,
      Bool.false_eq_true, if_false]
    cases hg : gp ⟨min numResults 10, q, numResults⟩ with
    | error e => simp [hg]
    | ok results => cases hr : results.isEmpty <;> simp [hg, hr]

/-- C5: for every user_choice outside the enumerated menu set, the
classification in `get_user_input` does not raise and falls back to the
default branch: in `src/google_serper.py` the default request kind
("general" search with request "Search for: …") and default query
"latest technology news" when the supplied query is empty; in
`src/arxiv.py` the "general" kind with default query "machine learning". -/
theorem unknown_choice_falls_back
    (choice query timeFilter numStr : String)
    (hSerper : (["1", "2", "3", "4", "5", "6"].contains (pyStrip choice)) = false)
    (hArxiv : (["1", "2", "3", "4"].contains (pyStrip choice)) = false) :
    getUserInputSerper choice query timeFilter =
      (let q := if pyStrip query == "" then "latest technology news" else pyStrip query
       ("Search for: " ++ q, [("query", q), ("search_type", "general")])) ∧
    getUserInputArxiv choice query numStr =
      (let t := if pyStrip query == "" then "machine learning" else pyStrip query
       ("Research papers on: " ++ t,
        [("topic", PVal.s t), ("search_type", PVal.s "general")])) := by
  simp only [List.contains, List.elem_eq_mem, List.mem_cons, List.not_mem_nil,
    or_false, decide_eq_false_iff_not, not_or] at hSerper hArxiv
  obtain ⟨n1, n2, n3, n4, n5, n6⟩ := hSerper
  obtain ⟨m1, m2, m3, m4⟩ := hArxiv
  constructor
  · unfold getUserInputSerper
    simp [beq_iff_eq, n1, n2, n3, n4, n5, n6]
  · unfold getUserInputArxiv
    simp [beq_iff_eq, m1, m2, m3, m4]

theorem unknown_choice_falls_back_witness :
    getUserInputSerper "9" " " "" =
      ("Search for: latest technology news",
       [("query", "latest technology news"), ("search_type", "general")]) ∧
    getUserInputArxiv "9" " " "" =
      ("Research papers on: machine learning",
       [("topic", PVal.s "machine learning"), ("search_type", PVal.s "general")]) :=
  unknown_choice_falls_back "9" " " "" "" (by decide) (by decide)

/-- C6: for every input string on which Python integer parsing fails, the
classification in `get_user_input` silently substitutes the hardcoded
fallback 5 — for `max_papers` in `src/arxiv.py` (choice 3) and for
`num_results` in `src/PAID_google_search.py` (choice 2) — producing the
normal parameter dictionary with 5 instead of reporting an input error. -/
theorem nonint_numeric_input_falls_back
    (topic query raw : String)
    (h : parseIntPy raw = none) :
    (getUserInputArxiv "3" topic raw).2 =
      [("topic", PVal.s (pyStrip topic)), ("max_papers", PVal.i 5),
       ("search_type", PVal.s "comprehensive")] ∧
    (getUserInputPaidGoogle "2" query raw).2 =
      [("query", PVal.s (pyStrip query)), ("num_results", PVal.i 5),
       ("search_type", PVal.s "detailed")] := by
  have h5 := pyIntOr5Clamped_of_parse_fail h
  constructor
  · have e1 : (getUserInputArxiv "3" topic raw).2 =
        [("topic", PVal.s (pyStrip topic)),
         ("max_papers", PVal.i (pyIntOr5Clamped raw)),
         ("search_type", PVal.s "comprehensive")] := rfl
    rw [e1, h5]
  · have e2 : (getUserInputPaidGoogle "2" query raw).2 =
        [("query", PVal.s (pyStrip query)),
         ("num_results", PVal.i (pyIntOr5Clamped raw)),
         ("search_type", PVal.s "detailed")] := rfl
    rw [e2, h5]

theorem nonint_numeric_input_falls_back_witness :
    (getUserInputArxiv "3" "qc" "lots").2 =
      [("topic", PVal.s "qc"), ("max_papers", PVal.i 5),
       ("search_type", PVal.s "comprehensive")] ∧
    (getUserInputPaidGoogle "2" "qc" "lots").2 =
      [("query", PVal.s "qc"), ("num_results", PVal.i 5),
       ("search_type", PVal.s "detailed")] :=
  nonint_numeric_input_falls_back "qc" "qc" "lots" (by decide)

/-- C7: for every enumerated user_choice and every query, the synthesized
`raw_intent` is the documented deterministic human-readable restatement — a
pure function of the choice and the (stripped) query — for all six menu
choices of `src/google_serper.py` and all four of
`src/PAID_google_search.py`; in particular choice "2" yields exactly
"Perform a detailed search with metadata for: <query>". -/
theorem raw_intent_deterministic_restatement (query timeFilter numStr : String) :
    (getUserInputSerper "1" query timeFilter).1 =
      "Perform a general web search for: " ++ pyStrip query ∧
    (getUserInputSerper "2" query timeFilter).1 =
      "Perform a detailed search with metadata for: " ++ pyStrip query ∧
    (getUserInputSerper "3" query timeFilter).1 =
      "Search for recent news about: " ++ pyStrip query ∧
    (getUserInputSerper "4" query timeFilter).1 =
      "Search for images related to: " ++ pyStrip query ∧
    (getUserInputSerper "5" query timeFilter).1 =
      "Search for places related to: " ++ pyStrip query ∧
    (getUserInputSerper "6" query timeFilter).1 =
      "Conduct comprehensive research on: " ++ pyStrip query ∧
    (getUserInputPaidGoogle "1" query numStr).1 =
      "Perform a general web search for: " ++ pyStrip query ∧
    (getUserInputPaidGoogle "2" query numStr).1 =
      "Perform a detailed search with metadata for: " ++ pyStrip query ∧
    (getUserInputPaidGoogle "3" query numStr).1 =
      "Perform a quick search for: " ++ pyStrip query ∧
    (getUserInputPaidGoogle "4" query numStr).1 =
      "Conduct comprehensive research on: " ++ pyStrip query :=
  ⟨rfl, rfl, rfl, rfl, rfl, rfl, rfl, rfl, rfl, rfl⟩

/-- C8: two runs of the classification-and-task-construction pipeline of
`src/google_serper.py` (`get_user_input` then `create_serper_task`) with
identical `(user_choice, parameters)` inputs produce identical request
descriptions and task specifications — the embedded pipeline is a pure
function of its inputs. -/
theorem dispatch_two_run_deterministic
    (choice query timeFilter : String)
    (r₁ r₂ : (String × List (String × String)) × CrewTask)
    (h₁ : r₁ = serperDispatch choice query timeFilter)
    (h₂ : r₂ = serperDispatch choice query timeFilter) :
    r₁ = r₂ := h₁.trans h₂.symm

theorem dispatch_two_run_deterministic_witness :
    serperDispatch "1" "ai news" "" = serperDispatch "1" "ai news" "" :=
  dispatch_two_run_deterministic "1" "ai news" "" _ _ rfl rfl

/-- C9: for every `result_type` outside {"search", "images", "news",
"places"}, `search_web_detailed` issues the underlying call with the
fallback type "search", but none of the formatting branches (which test the
original `result_type`) match, so on a successful provider call it returns
exactly the header "Detailed search results for '<query>':" followed by a
blank line, with no result content rendered. -/
theorem unknown_result_type_header_only
    (serperApiKey : Option String)
    (provider : String × String → Except String SerperResults)
    (query resultType : String) (res : SerperResults)
    (hkey : envFalsy serperApiKey = false)
    (hrt : (["search", "images", "news", "places"].contains resultType) = false)
    (hp : provider ("search", query) = Except.ok res) :
    searchWebDetailed serperApiKey provider query resultType =
      ("Detailed search results for '" ++ query ++ "':\n\n", [("search", query)]) := by
  have hne := hrt
  simp only [List.contains, List.elem_eq_mem, List.mem_cons, List.not_mem_nil,
    or_false, decide_eq_false_iff_not, not_or] at hne
  obtain ⟨n1, n2, n3, n4⟩ := hne
  unfold searchWebDetailed
  simp [hkey, hrt, hp, beq_iff_eq, n1, n2, n3, n4]

theorem unknown_result_type_header_only_witness :
    searchWebDetailed (some "k") (fun _ => Except.ok stubSerperResults) "q" "videos" =
      ("Detailed search results for 'q':\n\n", [("search", "q")]) :=
  unknown_result_type_header_only (some "k") (fun _ => Except.ok stubSerperResults)
    "q" "videos" stubSerperResults (by decide) (by decide) rfl

/-- C10: for every terms string whose comma-split yields fewer than two
elements, `compare_trends` returns the fixed at-least-2-terms message and
performs no provider call, even when `SERP_API_KEY` is present. -/
theorem too_few_terms_no_provider_call
    (serpApiKey : Option String)
    (floatFmt provider : String → Except String String) (terms : String)
    (hkey : envFalsy serpApiKey = false)
    (hlen : ((pySplitChar ',' terms).map pyStrip).length < 2) :
    compareTrends serpApiKey floatFmt provider terms =
      ("Please provide at least 2 terms separated by commas for comparison.", 0) := by
  unfold compareTrends
  dsimp only
  simp only [hkey, Bool.false_eq_true, if_false]
  rw [if_pos hlen]

theorem too_few_terms_no_provider_call_witness :
    compareTrends (some "k") (fun s => Except.ok s) (fun _ => Except.ok "x") "iphone" =
      ("Please provide at least 2 terms separated by commas for comparison.", 0) :=
  too_few_terms_no_provider_call (some "k") (fun s => Except.ok s)
    (fun _ => Except.ok "x") "iphone" (by decide) (by decide)
